import Mathlib

/-!
Verification of the firecrawl-simple crawl service against its specification.

The definitions below are a shallow embedding of the TypeScript source:
  - apps/api/src/scraper/WebScraper/scrapers/fetch.ts      (scrapeWithFetch)
  - apps/api/src/scraper/WebScraper/scrapers/playwright.ts (scrapeWithPlaywright)
  - apps/api/src/scraper/WebScraper/index.ts               (normalizeUrl, applyPathReplacements,
                                                            the markdown-gated rewrite step of processLinks)
  - apps/api/src/main/runWebScraper.ts                     (startWebScraperPipeline pageOptions merge)
  - the v1 crawl controller (crawlController)

External collaborators (axios, JSON.parse, RegExp compilation, redis helpers, the
queue, uuid generation, getJobPriority, tryGetSitemap, getRobotsTxt) are not part
of the source tree under scrutiny; they are modelled as explicit outcome values
or oracle functions supplied as inputs, and the controller's calls to the redis
and queue helpers are recorded as an event trace so that ordering properties can
be stated.
-/

namespace Firecrawl

/-! ## JavaScript-semantics helpers -/

/-- JS `m || fallback` for a value that is a string or undefined:
`undefined` and the empty string are falsy. -/
def jsOrStr (m : Option String) (fallback : String) : String :=
  match m with
  | none => fallback
  | some s => if s = "" then fallback else s

/-- JS `n || null` for a value that is a number or undefined: `0` is falsy. -/
def jsOrNullNat (n : Option Nat) : Option Nat :=
  match n with
  | none => none
  | some k => if k = 0 then none else some k

/-- JS truthiness of a string-or-undefined value: `undefined` and `""` are falsy. -/
def jsTruthyOptStr (s : Option String) : Bool :=
  match s with
  | none => false
  | some v => !(v == "")

/-! ## Fetch clients (fetch.ts, playwright.ts)

Both fetchers return `\x7b content, pageStatusCode?, pageError? \x7d`.
The outcome of an axios call is an input: either the promise resolved with a
response (status, statusText, and the raw body string -- both call sites set
`transformResponse: [(data) => data]`, so `response.data` is the unparsed text),
or it rejected with a JS error. -/

/-- A thrown JS error as the scrapers inspect it: `error.code`, `error.message`
(possibly absent), the `String(error)` rendering used as the `||` fallback, and
`error.response?.status` when axios attached a response. -/
structure JsErr where
  code : Option String
  message : Option String
  str : String
  respStatus : Option Nat
  deriving Repr, DecidableEq

/-- Outcome of an axios request: resolution with (status, statusText, raw body
text) or rejection with a JS error. -/
inductive AxiosOutcome where
  | resp (status : Nat) (statusText : String) (data : String)
  | err (e : JsErr)
  deriving Repr, DecidableEq

/-- The record both scrapers return. -/
structure ScrapeResult where
  content : String
  pageStatusCode : Option Nat
  pageError : Option String
  deriving Repr, DecidableEq

/-- The object produced by `JSON.parse` of the rendering service's body, as the
playwright scraper reads it (`data.content`, `data.pageStatusCode`, `data.pageError`). -/
structure ParsedPage where
  content : Option String
  pageStatusCode : Option Nat
  pageError : Option String
  deriving Repr, DecidableEq

/-- JS property access of a numeric field on a plain string value: always
`undefined` (`response.data` is the raw text, not a parsed object). -/
def strFieldNat (_s : String) (_field : String) : Option Nat := none

/-- JS property access of a string field on a plain string value: always `undefined`. -/
def strFieldStr (_s : String) (_field : String) : Option String := none

/-- Embedding of `scrapeWithFetch` (fetch.ts).  On resolution: non-200 yields
`\x7b content: "", pageStatusCode: status, pageError: statusText \x7d`, 200 yields the
body with `pageError: null`.  On rejection (the `catch`): `ECONNABORTED` maps to
`"Request timed out"`, anything else keeps `error.message || error`; content is `""`
and `pageStatusCode` is `null`. -/
def scrapeWithFetch (outcome : AxiosOutcome) : ScrapeResult :=
  match outcome with
  | .resp status statusText data =>
    if status ≠ 200 then
      { content := "", pageStatusCode := some status, pageError := some statusText }
    else
      { content := data, pageStatusCode := some status, pageError := none }
  | .err e =>
    if e.code = some "ECONNABORTED" then
      { content := "", pageStatusCode := none, pageError := some "Request timed out" }
    else
      { content := "", pageStatusCode := none, pageError := some (jsOrStr e.message e.str) }

/-- Embedding of `scrapeWithPlaywright` (playwright.ts).
`reqParams` is the outcome of `generateRequestParams` (external; errors from it
reach the outer `catch`).  `post` is the outcome of the `axios.post` to the
rendering service: its rejections are caught by the inner `catch (axiosError)`,
which returns early with the original message.  `parse` is the `JSON.parse`
oracle applied to the raw body on the 200 path.  In the non-200 resolution
branch the source reads `response.data?.pageStatusCode` and
`response.data?.pageError`, but `response.data` is the unparsed body string
(`transformResponse` is the identity), so both accesses are `undefined`. -/
def scrapeWithPlaywright (reqParams : Except JsErr Unit) (post : AxiosOutcome)
    (parse : String → Except JsErr ParsedPage) : ScrapeResult :=
  match reqParams with
  | .error e =>
    -- outer catch: only errors thrown outside the inner try reach it
    if e.code = some "ECONNABORTED" then
      { content := "", pageStatusCode := none, pageError := some "Request timed out" }
    else
      { content := "", pageStatusCode := none, pageError := some (jsOrStr e.message e.str) }
  | .ok _ =>
    match post with
    | .err e =>
      -- inner catch (axiosError): returns early, keeping the original message
      { content := "", pageStatusCode := jsOrNullNat e.respStatus,
        pageError := some (jsOrStr e.message e.str) }
    | .resp status _statusText data =>
      if status ≠ 200 then
        { content := "", pageStatusCode := strFieldNat data "pageStatusCode",
          pageError := strFieldStr data "pageError" }
      else
        match parse data with
        | .ok d =>
          { content := d.content.getD "", pageStatusCode := d.pageStatusCode,
            pageError := d.pageError }
        | .error je =>
          { content := "", pageStatusCode := none,
            pageError := some (jsOrStr je.message je.str) }

/-- An ECONNABORTED rejection as axios produces it on timeout. -/
def timeoutErr : JsErr :=
  { code := some "ECONNABORTED", message := some "timeout of 30000ms exceeded",
    str := "AxiosError: timeout of 30000ms exceeded", respStatus := none }

/-- A connection-refused rejection. -/
def refusedErr : JsErr :=
  { code := some "ECONNREFUSED", message := some "connect ECONNREFUSED 127.0.0.1:3000",
    str := "Error: connect ECONNREFUSED 127.0.0.1:3000", respStatus := none }

/-- A `JSON.parse` oracle that always fails; the branches under scrutiny never
reach the parse. -/
def noParse : String → Except JsErr ParsedPage :=
  fun _ => Except.error { code := none, message := some "Unexpected token", str := "SyntaxError", respStatus := none }

/-- C3 counterexample: an ECONNABORTED timeout of the `axios.post` to the
rendering service is caught by the inner catch of `scrapeWithPlaywright`, which
returns the original axios message -- not `"Request timed out"` as the claim
states for both scrapers. -/
theorem playwright_timeout_keeps_axios_message :
    (scrapeWithPlaywright (Except.ok ()) (AxiosOutcome.err timeoutErr) noParse).pageError
      ≠ some "Request timed out" := by
  decide

/-- C3 (amended): `scrapeWithFetch` maps ECONNABORTED to `"Request timed out"`
and preserves the original message otherwise; `scrapeWithPlaywright` applies the
mapping only to errors raised outside the HTTP request (outer catch) -- errors of
the request itself, ECONNABORTED included, are returned with the original axios
message; in every error case the content is `""` and a result is returned rather
than an exception thrown. -/
theorem scrape_error_paths (e : JsErr) (p : String → Except JsErr ParsedPage)
    (post : AxiosOutcome) :
    (scrapeWithFetch (AxiosOutcome.err e)).content = "" ∧
    (e.code = some "ECONNABORTED" →
      (scrapeWithFetch (AxiosOutcome.err e)).pageError = some "Request timed out") ∧
    (e.code ≠ some "ECONNABORTED" →
      (scrapeWithFetch (AxiosOutcome.err e)).pageError = some (jsOrStr e.message e.str)) ∧
    (scrapeWithPlaywright (Except.ok ()) (AxiosOutcome.err e) p).content = "" ∧
    (scrapeWithPlaywright (Except.ok ()) (AxiosOutcome.err e) p).pageError
      = some (jsOrStr e.message e.str) ∧
    (scrapeWithPlaywright (Except.error e) post p).content = "" ∧
    (e.code = some "ECONNABORTED" →
      (scrapeWithPlaywright (Except.error e) post p).pageError = some "Request timed out") := by
  refine ⟨?_, ?_, ?_, ?_, ?_, ?_, ?_⟩
  · by_cases h : e.code = some "ECONNABORTED" <;> simp [scrapeWithFetch, h]
  · intro h; simp [scrapeWithFetch, h]
  · intro h; simp [scrapeWithFetch, h]
  · simp [scrapeWithPlaywright]
  · simp [scrapeWithPlaywright]
  · by_cases h : e.code = some "ECONNABORTED" <;> simp [scrapeWithPlaywright, h]
  · intro h; simp [scrapeWithPlaywright, h]

/-- C3 witness: the amended behaviour at concrete errors. -/
theorem scrape_error_paths_witness :
    (scrapeWithFetch (AxiosOutcome.err timeoutErr)).pageError = some "Request timed out" ∧
    (scrapeWithFetch (AxiosOutcome.err refusedErr)).pageError
      = some (jsOrStr refusedErr.message refusedErr.str) ∧
    (scrapeWithPlaywright (Except.error timeoutErr) (AxiosOutcome.err refusedErr) noParse).pageError
      = some "Request timed out" :=
  ⟨(scrape_error_paths timeoutErr noParse (AxiosOutcome.err refusedErr)).2.1 rfl,
   (scrape_error_paths refusedErr noParse (AxiosOutcome.err refusedErr)).2.2.1 (by decide),
   (scrape_error_paths timeoutErr noParse (AxiosOutcome.err refusedErr)).2.2.2.2.2.2 rfl⟩

/-- C8: when the `axios.post` to the rendering service resolves with a status
other than 200, `scrapeWithPlaywright` returns `content = ""` but both
`pageStatusCode` and `pageError` are `undefined`: `response.data` is the raw
unparsed body string, so `response.data?.pageStatusCode` and
`response.data?.pageError` are property accesses on a string. -/
theorem playwright_non200_fields (status : Nat) (st data : String)
    (p : String → Except JsErr ParsedPage) (h : status ≠ 200) :
    scrapeWithPlaywright (Except.ok ()) (AxiosOutcome.resp status st data) p
      = { content := "", pageStatusCode := none, pageError := none } := by
  simp [scrapeWithPlaywright, strFieldNat, strFieldStr, h]

/-- C8 witness: a 204 resolution from the rendering service (a realizable
non-200 resolution: axios rejects non-2xx statuses, but any 2xx other than 200
resolves) yields a result with no pageError and no pageStatusCode. -/
theorem playwright_non200_fields_witness :
    scrapeWithPlaywright (Except.ok ()) (AxiosOutcome.resp 204 "No Content" "body") noParse
      = { content := "", pageStatusCode := none, pageError := none } :=
  playwright_non200_fields 204 "No Content" "body" noParse (by decide)

/-! ## URL normalization (WebScraperDataProvider.normalizeUrl, index.ts)

```
private normalizeUrl(url: string): string \x7b
  if (url.includes("//www.")) \x7b
    return url.replace("//www.", "//");
  \x7d
  return url;
\x7d
```
JS `String.prototype.replace` with a string pattern replaces only the first
occurrence; `includes` is a substring test.  Both are embedded over `List Char`. -/

/-- Does `pat` occur at the front of `s`? -/
def subAt : List Char → List Char → Bool
  | [], _ => true
  | _ :: _, [] => false
  | p :: ps, c :: cs => p == c && subAt ps cs

/-- JS `s.includes(pat)`: does `pat` occur anywhere in `s`? -/
def hasSub (pat : List Char) : List Char → Bool
  | [] => pat.isEmpty
  | c :: cs => subAt pat (c :: cs) || hasSub pat cs

/-- JS `s.replace(pat, repl)` with a string pattern: replace the first
(leftmost) occurrence of `pat` by `repl`; if there is none, return `s`. -/
def replFirst (pat repl : List Char) : List Char → List Char
  | [] => []
  | c :: cs =>
    if subAt pat (c :: cs) then repl ++ (c :: cs).drop pat.length
    else c :: replFirst pat repl cs

/-- Embedding of `normalizeUrl` (index.ts): drop the first `"//www."` down to
`"//"` when present. -/
def normalizeUrl (url : String) : String :=
  if hasSub "//www.".toList url.toList then
    String.mk (replFirst "//www.".toList "//".toList url.toList)
  else url

/-- A string the once-normalized form of which contains no further `"//www."`
is a fixed point of `normalizeUrl`. -/
theorem normalizeUrl_eq_self (v : String)
    (h : hasSub "//www.".toList v.toList = false) : normalizeUrl v = v := by
  unfold normalizeUrl
  simp only [h]
  simp

/-- C4 counterexample: `normalizeUrl` is not idempotent.  For
`"http://www.www.example.com"` the first application yields
`"http://www.example.com"`, which still contains `"//www."`, so a second
application changes it again (to `"http://example.com"`). -/
theorem normalizeUrl_not_idempotent :
    normalizeUrl (normalizeUrl "http://www.www.example.com")
      ≠ normalizeUrl "http://www.www.example.com" := by
  decide

/-- C4 (amended): `normalizeUrl` is idempotent on every URL whose normalized
form no longer contains `"//www."` -- in particular on any URL with a single
`www.` prefix; only URLs with stacked `www.` prefixes normalize differently
under repeated application. -/
theorem normalizeUrl_idempotent_when_stable (u : String)
    (h : hasSub "//www.".toList (normalizeUrl u).toList = false) :
    normalizeUrl (normalizeUrl u) = normalizeUrl u :=
  normalizeUrl_eq_self (normalizeUrl u) h

/-- C4 witness: idempotence at `"http://www.example.com"`. -/
theorem normalizeUrl_idempotent_when_stable_witness :
    normalizeUrl (normalizeUrl "http://www.example.com")
      = normalizeUrl "http://www.example.com" :=
  normalizeUrl_idempotent_when_stable "http://www.example.com" (by decide)

/-! ## Documents and the path-rewrite stage of processLinks (index.ts)

`processLinks` ends with

```
if (this.pageOptions.includeMarkdown) \x7b
  documents = this.applyPathReplacements(documents);
\x7d
return documents;
```

and

```
private applyPathReplacements(documents: Document[]): Document[] \x7b
  if (this.replaceAllPathsWithAbsolutePaths) \x7b
    documents = replacePathsWithAbsolutePaths(documents);
  \x7d
  return replaceImgPathsWithAbsolutePaths(documents);
\x7d
```

The two rewrite functions live in utils/replacePaths (outside the sources under
scrutiny) and are taken as function arguments. -/

/-- A per-page output record; fields not touched by the properties below are omitted. -/
structure Document where
  content : String
  markdown : Option String
  sourceURL : String
  deriving Repr, DecidableEq

/-- Embedding of `WebScraperDataProvider.applyPathReplacements`. -/
def applyPathReplacements (replacePaths replaceImgPaths : List Document → List Document)
    (replaceAllPathsWithAbsolutePaths : Bool) (documents : List Document) : List Document :=
  replaceImgPaths (if replaceAllPathsWithAbsolutePaths then replacePaths documents else documents)

/-- Embedding of the final step of `WebScraperDataProvider.processLinks`: the
path rewrites run only when `pageOptions.includeMarkdown` is set. -/
def processLinksRewriteStep (includeMarkdown : Bool)
    (replacePaths replaceImgPaths : List Document → List Document)
    (replaceAllPathsWithAbsolutePaths : Bool) (documents : List Document) : List Document :=
  if includeMarkdown then
    applyPathReplacements replacePaths replaceImgPaths replaceAllPathsWithAbsolutePaths documents
  else documents

/-- A rewrite function that visibly changes every document. -/
def demoRewrite (ds : List Document) : List Document :=
  ds.map (fun d => { d with content := "rewritten" })

/-- A sample document. -/
def demoDoc : Document :=
  { content := "a", markdown := none, sourceURL := "https://ex.com/a" }

/-- C2 counterexample: with `includeMarkdown = false` the rewrite step returns
the documents unchanged even though `replaceAllPathsWithAbsolutePaths` is set,
so the rewrites are not applied for every pageOptions configuration. -/
theorem rewrite_skipped_without_markdown :
    processLinksRewriteStep false demoRewrite id true [demoDoc]
      ≠ applyPathReplacements demoRewrite id true [demoDoc] := by
  decide

/-- C2 (amended): the path rewrites are gated on `includeMarkdown`: when it is
true, `applyPathReplacements` runs (with `replaceAllPathsWithAbsolutePaths`
selecting the full path rewrite and the image rewrite always running); when it
is false the documents pass through unchanged regardless of
`replaceAllPathsWithAbsolutePaths`. -/
theorem rewrite_gated_by_markdown (replacePaths replaceImgPaths : List Document → List Document)
    (flag : Bool) (documents : List Document) :
    processLinksRewriteStep true replacePaths replaceImgPaths flag documents
      = replaceImgPaths (if flag then replacePaths documents else documents) ∧
    processLinksRewriteStep false replacePaths replaceImgPaths flag documents = documents :=
  ⟨rfl, rfl⟩

/-! ## Worker pipeline pageOptions merge (runWebScraper.ts)

`startWebScraperPipeline` builds

```
pageOptions: \x7b
  ...job.data.pageOptions,
  ...(job.data.crawl_id ? \x7b includeRawHtml: true \x7d : \x7b\x7d),
\x7d
```

so a truthy `crawl_id` overrides `includeRawHtml` with `true`. -/

/-- The page options fields the pipeline merge can affect. -/
structure PageOptions where
  includeMarkdown : Bool
  includeRawHtml : Bool
  deriving Repr, DecidableEq

/-- The queue-job payload fields read by `startWebScraperPipeline`. -/
structure PipelineJobData where
  url : String
  mode : String
  team_id : String
  crawl_id : Option String
  pageOptions : PageOptions
  deriving Repr, DecidableEq

/-- Embedding of the `pageOptions` object `startWebScraperPipeline` passes to
`runWebScraper`. -/
def pipelinePageOptions (jd : PipelineJobData) : PageOptions :=
  if jsTruthyOptStr jd.crawl_id then { jd.pageOptions with includeRawHtml := true }
  else jd.pageOptions

/-- C10: a job carrying a (nonempty) `crawl_id` has `includeRawHtml` forced to
`true` in the pageOptions handed to the scraper pipeline, whatever the job's own
setting; a job without a `crawl_id` keeps its own pageOptions unchanged. -/
theorem pipeline_forces_raw_html (jd : PipelineJobData) :
    (∀ c, jd.crawl_id = some c → c ≠ "" →
      (pipelinePageOptions jd).includeRawHtml = true) ∧
    (jd.crawl_id = none → pipelinePageOptions jd = jd.pageOptions) := by
  constructor
  · intro c hc hne
    simp [pipelinePageOptions, jsTruthyOptStr, hc, hne]
  · intro hc
    simp [pipelinePageOptions, jsTruthyOptStr, hc]

/-- A crawl job whose own pageOptions ask for no raw HTML. -/
def demoCrawlJob : PipelineJobData :=
  { url := "https://ex.com/a", mode := "single_urls", team_id := "t1",
    crawl_id := some "c1", pageOptions := { includeMarkdown := true, includeRawHtml := false } }

/-- The same job without a crawl id. -/
def demoLoneJob : PipelineJobData :=
  { url := "https://ex.com/a", mode := "single_urls", team_id := "t1",
    crawl_id := none, pageOptions := { includeMarkdown := true, includeRawHtml := false } }

/-- C10 witness: the override at a concrete crawl job, and preservation at a
concrete crawl-less job. -/
theorem pipeline_forces_raw_html_witness :
    (pipelinePageOptions demoCrawlJob).includeRawHtml = true ∧
    pipelinePageOptions demoLoneJob = demoLoneJob.pageOptions :=
  ⟨(pipeline_forces_raw_html demoCrawlJob).1 "c1" rfl (by decide),
   (pipeline_forces_raw_html demoLoneJob).2 rfl⟩

/-! ## The v1 crawl controller (crawlController)

The controller validates the include/exclude regexes, persists the StoredCrawl,
optionally fetches the sitemap, and then either bulk-enqueues one job per
sitemap entry (locking all their URLs first) or enqueues a single seed job
(locking the seed URL first).  Its calls to the redis/queue helpers are recorded
as an event trace.  External collaborators are oracle inputs:
`regexCheck` models `new RegExp(x)` (`none` = compiles, `some msg` = throws with
that message), `robots` the `getRobotsTxt` outcome, `sitemapFetch` the
`tryGetSitemap` result, `policyPriority` the `getJobPriority` return value, and
`jobUuid`/`seedUuid` the `uuidv4()` draws.  Modelled from the spec:
`addScrapeJobRaw` (services/queue-jobs, not among the sources) enqueues with the
`jobId` it is given and returns that job, so the id added to the membership set
is the seed job's id. -/

/-- One sitemap entry as the controller reads it (`x.url`). -/
structure SitemapEntry where
  url : String
  deriving Repr, DecidableEq

/-- `includes`/`excludes` arrive as either a comma string or an array;
the controller validates only the array form (`Array.isArray`). -/
inductive StrOrArr where
  | str (s : String)
  | arr (l : List String)
  deriving Repr, DecidableEq

/-- The crawler options fields the controller reads. -/
structure CrawlerOptions where
  includes : StrOrArr
  excludes : StrOrArr
  ignoreSitemap : Option Bool
  deriving Repr, DecidableEq

/-- A job as it reaches the queue: the payload fields the claims mention plus
the enqueue priority from the job's opts. -/
structure QueueJob where
  jobId : String
  url : String
  mode : String
  team_id : String
  crawl_id : String
  sitemapped : Option Bool
  priority : Nat
  deriving Repr, DecidableEq

/-- The redis/queue calls the controller makes, in order. -/
inductive Event where
  | saveCrawl (id : String)
  | lockURL (id url : String)
  | lockURLs (id : String) (urls : List String)
  | addCrawlJob (id jobId : String)
  | addCrawlJobs (id : String) (jobIds : List String)
  | addScrapeJob (job : QueueJob)
  | addBulk (jobs : List QueueJob)
  deriving Repr, DecidableEq

/-- The controller's HTTP response body. -/
inductive RespBody where
  | okBody (id url : String)
  | errBody (error : String)
  deriving Repr, DecidableEq

/-- Is the body the `\x7b success: false, error \x7d` shape? -/
def RespBody.isErr : RespBody → Bool
  | .errBody _ => true
  | _ => false

/-- Status, body and the trace of state-changing calls of one controller run. -/
structure ControllerResult where
  status : Nat
  body : RespBody
  trace : List Event
  deriving Repr

/-- Everything one controller invocation depends on. -/
structure ControllerInput where
  id : String
  url : String
  crawlerOptions : CrawlerOptions
  team_id : String
  plan : String
  regexCheck : String → Option String
  robots : Option String
  sitemapFetch : Option (List SitemapEntry)
  policyPriority : Nat
  jobUuid : Nat → String
  seedUuid : String
  envLocal : Bool
  reqProtocol : String
  host : String

/-- The `try \x7b new RegExp(x) \x7d catch` loop over a pattern list: the first
pattern that fails to compile aborts with its error message. -/
def findRegexError (check : String → Option String) : List String → Option String
  | [] => none
  | x :: xs =>
    match check x with
    | some e => some e
    | none => findRegexError check xs

/-- Validation of one includes/excludes field: only the array form is checked. -/
def validateField (check : String → Option String) : StrOrArr → Option String
  | .str _ => none
  | .arr l => findRegexError check l

/-- One bulk job built from a sitemap entry (with its `uuidv4()` index draw):
`mode: "single_urls"`, `sitemapped: true`, and opts `priority: 20`. -/
def bulkJob (inp : ControllerInput) (ix : Nat × SitemapEntry) : QueueJob :=
  { jobId := inp.jobUuid ix.1, url := ix.2.url, mode := "single_urls",
    team_id := inp.team_id, crawl_id := inp.id, sitemapped := some true,
    priority := 20 }

/-- The seed job enqueued on the single-seed path: priority 15, not sitemapped. -/
def seedJob (inp : ControllerInput) : QueueJob :=
  { jobId := inp.seedUuid, url := inp.url, mode := "single_urls",
    team_id := inp.team_id, crawl_id := inp.id, sitemapped := none,
    priority := 15 }

/-- Trace of the single-seed path: persist, lock the seed URL, enqueue the seed
job, record its id in the membership set. -/
def seedTrace (inp : ControllerInput) : List Event :=
  [Event.saveCrawl inp.id,
   Event.lockURL inp.id inp.url,
   Event.addScrapeJob (seedJob inp),
   Event.addCrawlJob inp.id inp.seedUuid]

/-- Trace of the sitemap path: persist, lock all job URLs, record all job ids,
bulk-enqueue. -/
def bulkTrace (inp : ControllerInput) (l : List SitemapEntry) : List Event :=
  [Event.saveCrawl inp.id,
   Event.lockURLs inp.id ((l.enum.map (bulkJob inp)).map QueueJob.url),
   Event.addCrawlJobs inp.id ((l.enum.map (bulkJob inp)).map QueueJob.jobId),
   Event.addBulk (l.enum.map (bulkJob inp))]

/-- The resource URL of the 200 response:
`<scheme>://<host>/v1/crawl/<id>`, scheme `https` unless `ENV === "local"`. -/
def responseUrl (inp : ControllerInput) : String :=
  (if inp.envLocal then inp.reqProtocol else "https")
    ++ "://" ++ inp.host ++ "/v1/crawl/" ++ inp.id

/-- Embedding of `crawlController`.  Validation happens before any state write,
so the 400 paths have an empty trace.  The sitemap is only fetched when
`ignoreSitemap ?? true` is false.  On the sitemap path the source computes
`jobPriority` (via `getJobPriority` with `basePriority: 21` when the sitemap has
more than 1000 entries) but the bulk jobs' opts carry the literal
`priority: 20`, so the computed value never reaches the queue. -/
def crawlController (inp : ControllerInput) : ControllerResult :=
  match validateField inp.regexCheck inp.crawlerOptions.includes with
  | some e => ⟨400, RespBody.errBody e, []⟩
  | none =>
    match validateField inp.regexCheck inp.crawlerOptions.excludes with
    | some e => ⟨400, RespBody.errBody e, []⟩
    | none =>
      match (if inp.crawlerOptions.ignoreSitemap.getD true then none else inp.sitemapFetch) with
      | some l =>
        if 0 < l.length then
          let _jobPriority := if 1000 < l.length then inp.policyPriority else 20
          ⟨200, RespBody.okBody inp.id (responseUrl inp), bulkTrace inp l⟩
        else
          ⟨200, RespBody.okBody inp.id (responseUrl inp), seedTrace inp⟩
      | none => ⟨200, RespBody.okBody inp.id (responseUrl inp), seedTrace inp⟩

/-- The lock-set insertions an event performs, as (crawl id, url) pairs. -/
def locksOf : Event → List (String × String)
  | .lockURL i u => [(i, u)]
  | .lockURLs i us => us.map (fun u => (i, u))
  | _ => []

/-- The jobs an event hands to the queue. -/
def enqueuedOf : Event → List QueueJob
  | .addScrapeJob j => [j]
  | .addBulk js => js
  | _ => []

/-- All jobs a trace enqueues, in order. -/
def enqueuedJobs : List Event → List QueueJob
  | [] => []
  | e :: rest => enqueuedOf e ++ enqueuedJobs rest

/-- Replay of a trace: at each event, every job it enqueues must have its
(crawl id, url) pair already in the lock set accumulated so far. -/
def lockedBeforeEnqueue (locked : List (String × String)) : List Event → Prop
  | [] => True
  | e :: rest =>
    (∀ j ∈ enqueuedOf e, (j.crawl_id, j.url) ∈ locked) ∧
    lockedBeforeEnqueue (locked ++ locksOf e) rest

/-- The seed trace locks the seed URL before enqueuing the seed job. -/
theorem seedTrace_locked (inp : ControllerInput) :
    lockedBeforeEnqueue [] (seedTrace inp) := by
  simp [seedTrace, lockedBeforeEnqueue, enqueuedOf, locksOf, seedJob]

/-- The bulk trace locks every job URL before the bulk enqueue. -/
theorem bulkTrace_locked (inp : ControllerInput) (l : List SitemapEntry) :
    lockedBeforeEnqueue [] (bulkTrace inp l) := by
  simp only [bulkTrace, lockedBeforeEnqueue, enqueuedOf, locksOf,
    List.nil_append, List.append_nil]
  refine ⟨?_, ?_, ?_, ?_, trivial⟩
  · simp
  · simp
  · simp
  · intro j hj
    obtain ⟨a, ha, rfl⟩ := List.mem_map.1 hj
    exact List.mem_map_of_mem _ (List.mem_map_of_mem _ (List.mem_map_of_mem _ ha))

/-- C5: on every controller run (seed path and sitemap path alike), each
enqueued job's URL is inserted into the crawl's lock set before the job reaches
the queue: replaying the call trace, every enqueue event only carries
(crawl id, url) pairs already locked. -/
theorem lock_before_enqueue (inp : ControllerInput) :
    lockedBeforeEnqueue [] (crawlController inp).trace := by
  unfold crawlController
  split
  · trivial
  · split
    · trivial
    · split
      · split
        · exact bulkTrace_locked inp _
        · exact seedTrace_locked inp
      · exact seedTrace_locked inp

/-- C6: when `ignoreSitemap` is true or absent (`?? true`), or the sitemap
fetch returns null or an empty list, the controller takes the seed path:
exactly one `single_urls` job for the origin URL at priority 15 is enqueued,
the seed URL is locked first, and the job's id is added to the crawl's
membership set. -/
theorem seed_path_exactly_one_job (inp : ControllerInput)
    (h1 : validateField inp.regexCheck inp.crawlerOptions.includes = none)
    (h2 : validateField inp.regexCheck inp.crawlerOptions.excludes = none)
    (h3 : inp.crawlerOptions.ignoreSitemap.getD true = true ∨
          inp.sitemapFetch = none ∨ inp.sitemapFetch = some []) :
    (crawlController inp).trace =
      [Event.saveCrawl inp.id,
       Event.lockURL inp.id inp.url,
       Event.addScrapeJob { jobId := inp.seedUuid, url := inp.url, mode := "single_urls",
                            team_id := inp.team_id, crawl_id := inp.id,
                            sitemapped := none, priority := 15 },
       Event.addCrawlJob inp.id inp.seedUuid] := by
  unfold crawlController
  rw [h1, h2]
  rcases h3 with h | h | h
  · rw [h]
    rfl
  · rw [h, ite_self]
    rfl
  · rw [h]
    cases hx : inp.crawlerOptions.ignoreSitemap.getD true <;> rfl

/-- `findRegexError` reports an error whenever some pattern in the list fails
to compile. -/
theorem findRegexError_some_of_mem (check : String → Option String)
    (l : List String) (x msg : String) (hx : x ∈ l) (hc : check x = some msg) :
    ∃ e, findRegexError check l = some e := by
  induction l with
  | nil => cases hx
  | cons a as ih =>
    cases hca : check a with
    | some e => exact ⟨e, by simp [findRegexError, hca]⟩
    | none =>
      rcases List.mem_cons.1 hx with rfl | hmem
      · rw [hca] at hc
        cases hc
      · obtain ⟨e, he⟩ := ih hmem
        exact ⟨e, by simp [findRegexError, hca, he]⟩

/-- C7: if some element of the includes array or of the excludes array fails
to compile as a regular expression, the controller answers 400 with
`\x7b success: false, error \x7d` and performs no state change at all: nothing is
persisted, locked, or enqueued (the trace is empty). -/
theorem invalid_regex_rejected (inp : ControllerInput) (l : List String) (x msg : String)
    (hfield : inp.crawlerOptions.includes = StrOrArr.arr l ∨
              inp.crawlerOptions.excludes = StrOrArr.arr l)
    (hx : x ∈ l) (hc : inp.regexCheck x = some msg) :
    (crawlController inp).status = 400 ∧
    (crawlController inp).body.isErr = true ∧
    (crawlController inp).trace = [] := by
  rcases hfield with hf | hf
  · obtain ⟨e, he⟩ : ∃ e, validateField inp.regexCheck inp.crawlerOptions.includes = some e := by
      rw [hf]
      exact findRegexError_some_of_mem inp.regexCheck l x msg hx hc
    unfold crawlController
    rw [he]
    exact ⟨rfl, rfl, rfl⟩
  · cases hi : validateField inp.regexCheck inp.crawlerOptions.includes with
    | some e =>
      unfold crawlController
      rw [hi]
      exact ⟨rfl, rfl, rfl⟩
    | none =>
      obtain ⟨e, he⟩ : ∃ e, validateField inp.regexCheck inp.crawlerOptions.excludes = some e := by
        rw [hf]
        exact findRegexError_some_of_mem inp.regexCheck l x msg hx hc
      unfold crawlController
      rw [hi, he]
      exact ⟨rfl, rfl, rfl⟩

/-- C9: every submission that passes regex validation is answered with
status 200 and `\x7b success: true, id, url: "<scheme>://<host>/v1/crawl/<id>" \x7d`,
the scheme being the request's protocol when the deployment is marked local
(`ENV === "local"`) and `https` otherwise. -/
theorem success_response (inp : ControllerInput)
    (h1 : validateField inp.regexCheck inp.crawlerOptions.includes = none)
    (h2 : validateField inp.regexCheck inp.crawlerOptions.excludes = none) :
    (crawlController inp).status = 200 ∧
    (crawlController inp).body = RespBody.okBody inp.id
      ((if inp.envLocal then inp.reqProtocol else "https")
        ++ "://" ++ inp.host ++ "/v1/crawl/" ++ inp.id) := by
  unfold crawlController
  split
  next e heq => rw [h1] at heq; cases heq
  next =>
    split
    next e heq => rw [h2] at heq; cases heq
    next =>
      split
      · split
        · exact ⟨rfl, rfl⟩
        · exact ⟨rfl, rfl⟩
      · exact ⟨rfl, rfl⟩

/-- C1: on the sitemap path with more than 1000 entries, the source computes
`jobPriority` through the priority policy (basePriority 21) but every bulk job
is enqueued with the literal opts `priority: 20`; the computed value never
reaches the queue.  The whole trace is the bulk trace and every enqueued job's
priority is 20, whatever `getJobPriority` returned. -/
theorem bulk_priority_hardcoded (inp : ControllerInput) (l : List SitemapEntry)
    (h1 : validateField inp.regexCheck inp.crawlerOptions.includes = none)
    (h2 : validateField inp.regexCheck inp.crawlerOptions.excludes = none)
    (h3 : inp.crawlerOptions.ignoreSitemap = some false)
    (h4 : inp.sitemapFetch = some l)
    (h5 : 1000 < l.length) :
    (crawlController inp).trace = bulkTrace inp l ∧
    (enqueuedJobs (crawlController inp).trace).all (fun j => j.priority == 20) = true := by
  have hscrut : (if inp.crawlerOptions.ignoreSitemap.getD true then none else inp.sitemapFetch)
      = some l := by
    rw [h3, h4]
    rfl
  have htr : (crawlController inp).trace = bulkTrace inp l := by
    unfold crawlController
    split
    next e heq => rw [h1] at heq; cases heq
    next =>
      split
      next e heq => rw [h2] at heq; cases heq
      next =>
        split
        next l' heq =>
          rw [hscrut] at heq
          cases heq
          rw [if_pos (by omega : 0 < l.length)]
        next heq =>
          rw [hscrut] at heq
          cases heq
  refine ⟨htr, ?_⟩
  rw [htr]
  have hjobs : enqueuedJobs (bulkTrace inp l) = l.enum.map (bulkJob inp) := by
    simp [bulkTrace, enqueuedJobs, enqueuedOf]
  rw [hjobs, List.all_eq_true]
  intro j hj
  obtain ⟨a, ha, rfl⟩ := List.mem_map.1 hj
  rfl

/-- The regex oracle under which every pattern compiles. -/
def okCheck : String → Option String := fun _ => none

/-- A 1001-entry sitemap. -/
def bigSitemap : List SitemapEntry := List.replicate 1001 { url := "https://ex.com/a" }

/-- Controller input for the large-sitemap scenario: `ignoreSitemap: false`,
1001 sitemap URLs, priority policy answering 25. -/
def c1Input : ControllerInput :=
  { id := "crawl-1", url := "https://ex.com/a",
    crawlerOptions := { includes := StrOrArr.arr [], excludes := StrOrArr.arr [],
                        ignoreSitemap := some false },
    team_id := "team-1", plan := "growth", regexCheck := okCheck,
    robots := none, sitemapFetch := some bigSitemap, policyPriority := 25,
    jobUuid := fun i => "job-" ++ toString i, seedUuid := "seed-job",
    envLocal := false, reqProtocol := "http", host := "api.ex.com" }

/-- C1 witness: at the 1001-entry sitemap every enqueued job has priority 20,
although the policy answered 25. -/
theorem bulk_priority_hardcoded_witness :
    (enqueuedJobs (crawlController c1Input).trace).all (fun j => j.priority == 20) = true ∧
    c1Input.policyPriority = 25 :=
  ⟨(bulk_priority_hardcoded c1Input bigSitemap rfl rfl rfl rfl
      (by have h : bigSitemap.length = 1001 := by
            unfold bigSitemap
            rw [List.length_replicate]
          omega)).2, rfl⟩

/-- Controller input with `ignoreSitemap` absent (defaulting to true). -/
def c6Input : ControllerInput :=
  { id := "crawl-2", url := "https://ex.com/a",
    crawlerOptions := { includes := StrOrArr.arr [], excludes := StrOrArr.arr [],
                        ignoreSitemap := none },
    team_id := "team-1", plan := "free", regexCheck := okCheck,
    robots := some "User-agent: *", sitemapFetch := none, policyPriority := 20,
    jobUuid := fun i => "job-" ++ toString i, seedUuid := "seed-job",
    envLocal := false, reqProtocol := "http", host := "api.ex.com" }

/-- C6 witness: the seed path at a concrete submission with `ignoreSitemap`
absent. -/
theorem seed_path_exactly_one_job_witness :
    (crawlController c6Input).trace =
      [Event.saveCrawl "crawl-2",
       Event.lockURL "crawl-2" "https://ex.com/a",
       Event.addScrapeJob { jobId := "seed-job", url := "https://ex.com/a",
                            mode := "single_urls", team_id := "team-1",
                            crawl_id := "crawl-2", sitemapped := none, priority := 15 },
       Event.addCrawlJob "crawl-2" "seed-job"] :=
  seed_path_exactly_one_job c6Input rfl rfl (Or.inl rfl)

/-- A regex oracle under which `"("` fails to compile. -/
def parenCheck : String → Option String :=
  fun s => if s = "(" then some "Invalid regular expression" else none

/-- Controller input whose includes contain a malformed regex. -/
def c7Input : ControllerInput :=
  { id := "crawl-3", url := "https://ex.com/a",
    crawlerOptions := { includes := StrOrArr.arr ["(", "^/docs"],
                        excludes := StrOrArr.arr [], ignoreSitemap := none },
    team_id := "team-1", plan := "free", regexCheck := parenCheck,
    robots := none, sitemapFetch := none, policyPriority := 20,
    jobUuid := fun i => "job-" ++ toString i, seedUuid := "seed-job",
    envLocal := false, reqProtocol := "http", host := "api.ex.com" }

/-- C7 witness: the malformed include `"("` yields 400, an error body and an
empty trace. -/
theorem invalid_regex_rejected_witness :
    (crawlController c7Input).status = 400 ∧
    (crawlController c7Input).body.isErr = true ∧
    (crawlController c7Input).trace = [] :=
  invalid_regex_rejected c7Input ["(", "^/docs"] "(" "Invalid regular expression"
    (Or.inl rfl) (by decide) (by decide)

/-- C9 witness: the response shape at a concrete non-local deployment. -/
theorem success_response_witness :
    (crawlController c6Input).status = 200 ∧
    (crawlController c6Input).body
      = RespBody.okBody "crawl-2" "https://api.ex.com/v1/crawl/crawl-2" := by
  have h := success_response c6Input rfl rfl
  simpa using h

end Firecrawl
